import Mathlib

/-!
Verification development for sonia-auv/tpc_communicator.

The embedding covers src/scripts/communication.py (the communication-line
classes) and src/scripts/ros_java_communicator.py (the router). External
collaborators (rospy logging, the socket module, the ROS topic bus and the
RPC proxy) enter as parameters or as small outcome types; the observer
module imported by communication.py is not under src and is modelled from
the spec where it is needed.
-/

namespace Tpc

/-- Log levels of the rospy logging collaborator (loginfo, warn, logerr). -/
inductive LogLevel
  | info
  | warn
  | error
deriving DecidableEq

/-- Python runtime errors that the embedded code can raise. -/
inductive PyError
  | typeError
  | attributeError
deriving DecidableEq

/-- State written by AbstractCommunicationLine.__init__ (communication.py
lines 35-38): the input stream, the output stream, the connected flag and
the running flag. -/
structure LineState where
  input_stream : String
  output_stream : String
  connected : Bool
  running : Bool
deriving DecidableEq

/-- AbstractCommunicationLine.recv, lines 58-63: return the input stream
and reset it to the empty string. -/
def recv (s : LineState) : String × LineState :=
  (s.input_stream, { s with input_stream := "" })

/-- AbstractCommunicationLine.is_empty, lines 89-95: a nonempty (truthy)
input stream yields false, otherwise true. -/
def is_empty (s : LineState) : Bool :=
  if s.input_stream ≠ "" then false else true

/-- AbstractCommunicationLine.stop, lines 44-48: set the running flag to
false. -/
def stop (s : LineState) : LineState :=
  { s with running := false }

/-- The append performed by the adapters when data arrives (lines 165 and
239): input stream grows by the delivered fragment. -/
def append_input (s : LineState) (d : String) : LineState :=
  { s with input_stream := s.input_stream ++ d }

/-- Modelled from the spec: the observer module imported by communication.py
is not under src. Per the spec an Observable keeps an ordered listener
list. Listeners are abstract. -/
structure Observable (L : Type) where
  listeners : List L

/-- Modelled from the spec: attach adds the listener at the end of the
ordered listener list. -/
def attach {L : Type} (o : Observable L) (x : L) : Observable L :=
  { o with listeners := o.listeners ++ [x] }

/-- Modelled from the spec: notify invokes the update callback of each
listener, strictly in attachment order; the value returned here is the
sequence of listeners in the order their update callbacks are invoked. -/
def notify {L : Type} (o : Observable L) : List L :=
  o.listeners

/-- State of a JavaCommunicationLine: the abstract line state plus the
started flag used by its run and stop methods (lines 159, 181-182). -/
structure JavaLineState extends LineState where
  started : Bool
deriving DecidableEq

/-- Line 158 calls close() on the socket class imported by
communication.py line 7, not on an instance: in Python applying an unbound
method with no receiver raises TypeError. -/
def socket_class_close : Except PyError Unit :=
  Except.error PyError.typeError

/-- JavaCommunicationLine.stop, lines 154-160: first statement is
socket.close() (see socket_class_close); only if it returned would the
started flag be cleared and the parent stop run. An error carries the
state unchanged at the moment of the raise. -/
def java_stop (s : JavaLineState) : Except (PyError × JavaLineState) JavaLineState :=
  match socket_class_close with
  | Except.error e => Except.error (e, s)
  | Except.ok _ =>
    let s2 := { s with started := false }
    Except.ok { s2 with toLineState := stop s2.toLineState }

/-- Attributes of a JavaCommunicationLine readable at the time _connect
runs. JavaCommunicationLine.__init__ (lines 121-133) calls
AbstractCommunicationLine.__init__ on its first line, before the
assignments of host, port, _backlog, _buffer_size, _server and _client;
the parent constructor (lines 28-42) calls self._connect() at line 41, so
_connect runs while all of these are still unassigned. -/
structure JavaAttrs where
  host : Option String
  port : Option Nat
  backlog : Option Nat
  server_created : Bool
  listening : Bool
deriving DecidableEq

/-- The attribute store seen by _connect during construction: nothing from
lines 127-133 is assigned yet. -/
def freshJavaAttrs : JavaAttrs :=
  { host := none, port := none, backlog := none,
    server_created := false, listening := false }

/-- Outcome of constructing a line. -/
inductive InitOutcome
  | normal (listening : Bool)
  | sysExit (code : Nat)
  | raised (e : PyError)
deriving DecidableEq

/-- The try body of JavaCommunicationLine._connect, lines 138-141: create
the server socket (an external call assumed to succeed), then evaluate
self.host and self.port for bind; reading an unassigned attribute raises
AttributeError; with both assigned, bind and listen are external calls
assumed to succeed. -/
def java_try_body (a : JavaAttrs) : Except PyError JavaAttrs :=
  let a1 := { a with server_created := true }
  match a1.host with
  | none => Except.error PyError.attributeError
  | some _ =>
    match a1.port with
    | none => Except.error PyError.attributeError
    | some _ => Except.ok { a1 with listening := true }

/-- JavaCommunicationLine._connect, lines 135-152: on any error in the try
body the bare except closes the server socket if created, logs, and calls
sys.exit(1); otherwise logging and accept (external) follow. -/
def java_connect (a : JavaAttrs) : InitOutcome :=
  match java_try_body a with
  | Except.error _ => InitOutcome.sysExit 1
  | Except.ok a2 => InitOutcome.normal a2.listening

/-- JavaCommunicationLine.__init__, lines 121-133: the parent constructor
runs first and reaches self._connect() with no line attributes assigned
(freshJavaAttrs); only if _connect returned would the thread be started
and lines 127-133 assign host, port and the rest. -/
def java_init (_host : String) (_port : Nat) : InitOutcome :=
  java_connect freshJavaAttrs

/-- A TopicLine as the registry of the router sees it: its identity. The
accessor get_name used by the router is Modelled from the spec (the
observer module is not under src): it returns the identity of the line,
which for a TopicLine is its reading topic name. -/
structure TopicLine where
  name : String
deriving DecidableEq

/-- Attribute store of a ROSTopicCommunicationLine while __init__ runs:
lines 208-209 assign _writing_topic and _reading_topic (modelled as
w_topic and r_topic); the attribute reading_topic read on line 211 is
assigned nowhere in communication.py, and the observer module, Modelled
from the spec, supplies only the listener machinery, so that lookup finds
nothing. -/
structure TopicAttrs where
  w_topic : Option (Option String)
  r_topic : Option String
  reading_topic : Option String
deriving DecidableEq

/-- ROSTopicCommunicationLine.__init__, lines 204-220: after the two
assignments, line 211 evaluates self.reading_topic, whose lookup fails,
raising AttributeError; even were that attribute present, line 220 runs
AbstractCommunicationLine.__init__, whose line 41 calls self._connect(),
which no class in this hierarchy defines for a topic line. -/
def topic_line_init (reading : String) (writing : Option String) :
    Except PyError TopicLine :=
  let a : TopicAttrs :=
    { w_topic := some writing, r_topic := some reading, reading_topic := none }
  match a.reading_topic with
  | none => Except.error PyError.attributeError
  | some _ => Except.error PyError.attributeError

/-- Registry state of the router: the _topics list
(ros_java_communicator.py line 23). -/
structure RouterState where
  topics : List TopicLine
deriving DecidableEq

/-- Result of one ROSJavaCommunicator._update call: registry afterwards,
the service line afterwards, how many duplicate warnings were logged, the
name passed to the TopicLine constructor when creation was attempted, and
the error escaping the handler if one was raised. -/
structure UpdateResult where
  topics : List TopicLine
  service : LineState
  warnings : Nat
  attempted : Option String
  raised : Option PyError
deriving DecidableEq

/-- ROSJavaCommunicator._update, lines 35-48: line 36 calls service.recv()
and discards the result (the source TODO says it should become the topic
name); line 37 hard-codes the topic name; lines 39-44 scan the registry
and, at the first line with the requested name, log one warning and
return; lines 46-48 construct a TopicLine under the hard-coded name,
attach it and append it to the registry. The handler has no exception
handling, so a constructor error escapes it. -/
def router_update (s : RouterState) (svc : LineState) : UpdateResult :=
  let svc2 := (recv svc).2
  let topic_name := "test_talker"
  if s.topics.any (fun t => t.name == topic_name) then
    { topics := s.topics, service := svc2, warnings := 1,
      attempted := none, raised := none }
  else
    match topic_line_init topic_name none with
    | Except.error e =>
      { topics := s.topics, service := svc2, warnings := 0,
        attempted := some topic_name, raised := some e }
    | Except.ok t =>
      { topics := s.topics ++ [t], service := svc2, warnings := 0,
        attempted := some topic_name, raised := none }

/-- Outcome of the external RPC call made by ROSServiceCommunicationLine:
either the stringified response or a rospy.ServiceException. -/
inductive RpcOutcome
  | ok (result : String)
  | serviceException (msg : String)
deriving DecidableEq

/-- Python application of the value of the is_empty property: the property
yields a Bool, and applying a Bool as a function raises TypeError. -/
def call_bool (_b : Bool) : Except PyError Bool :=
  Except.error PyError.typeError

/-- Result of one ROSServiceCommunicationLine.send call: line state
afterwards, number of notify() calls made, log levels emitted in order,
and the error escaping send if one was raised. -/
structure SendResult where
  line : LineState
  notifies : Nat
  log : List LogLevel
  raised : Option PyError
deriving DecidableEq

/-- ROSServiceCommunicationLine.send, lines 274-297: after
rospy.wait_for_service (external), the try body logs the outgoing call
(line 279), invokes the RPC proxy, and on success appends the stringified
response to the input stream, then evaluates self.is_empty() at line 289:
is_empty is a property (line 89), so its Bool value gets applied as a
function (call_bool), raising TypeError, which the except clause (it
catches only rospy.ServiceException) lets escape. On
rospy.ServiceException the handler logs the failure and returns. -/
def service_send (s : LineState) (_node_name _filterchain_name _media_name : String)
    (_cmd : Nat) (rpc : RpcOutcome) : SendResult :=
  match rpc with
  | RpcOutcome.serviceException _ =>
    { line := s, notifies := 0,
      log := [LogLevel.info, LogLevel.error], raised := none }
  | RpcOutcome.ok r =>
    let s2 := { s with input_stream := s.input_stream ++ r }
    match call_bool (is_empty s2) with
    | Except.error e =>
      { line := s2, notifies := 0, log := [LogLevel.info], raised := some e }
    | Except.ok b =>
      if !b then
        { line := s2, notifies := 1,
          log := [LogLevel.info, LogLevel.info], raised := none }
      else
        { line := s2, notifies := 0, log := [LogLevel.info], raised := none }

/-- Result of one ROSTopicCommunicationLine.send call: the payload handed
to the publisher if any, the log levels emitted, and the error escaping
send if one was raised. -/
structure TopicSendResult where
  published : Option String
  log : List LogLevel
  raised : Option PyError
deriving DecidableEq

/-- ROSTopicCommunicationLine.send, lines 222-234: with a writing topic
configured, log and publish the data (publish is the external bus call);
with none, emit one warning through the logging collaborator and return
without publishing. -/
def topic_send (writing_topic : Option String) (data : String) : TopicSendResult :=
  match writing_topic with
  | some _ => { published := some data, log := [LogLevel.info], raised := none }
  | none => { published := none, log := [LogLevel.warn], raised := none }

/-- C1: for every line whose input buffer holds a fragment, is_empty is
false, recv returns the whole buffered fragment and leaves the buffer
empty, and a second recv with no intervening delivery returns the empty
string, so each fragment is returned by at most one recv call. -/
theorem recv_consumed_once (s : LineState) (h : s.input_stream ≠ "") :
    is_empty s = false ∧
    (recv s).1 = s.input_stream ∧
    is_empty (recv s).2 = true ∧
    (recv (recv s).2).1 = "" := by
  refine ⟨?_, rfl, ?_, rfl⟩
  · simp [is_empty, h]
  · simp [is_empty, recv]

/-- Witness for C1 at the concrete line of the spec scenario, whose buffer
holds the fragment hello. -/
theorem recv_consumed_once_witness :
    is_empty ⟨"hello", "", true, true⟩ = false ∧
    (recv ⟨"hello", "", true, true⟩).1 = LineState.input_stream ⟨"hello", "", true, true⟩ ∧
    is_empty (recv ⟨"hello", "", true, true⟩).2 = true ∧
    (recv (recv ⟨"hello", "", true, true⟩).2).1 = "" :=
  recv_consumed_once ⟨"hello", "", true, true⟩ (by decide)

/-- C2: when the registry already holds exactly one TopicLine under the
triggered name, a further trigger logs exactly one duplicate warning,
creates no line, raises nothing, and leaves the registry with exactly one
TopicLine under that name. -/
theorem router_duplicate_trigger (s : RouterState) (svc : LineState)
    (h : s.topics.any (fun t => t.name == "test_talker") = true)
    (h1 : (s.topics.filter (fun t => t.name == "test_talker")).length = 1) :
    (router_update s svc).warnings = 1 ∧
    (router_update s svc).topics = s.topics ∧
    (router_update s svc).raised = none ∧
    ((router_update s svc).topics.filter (fun t => t.name == "test_talker")).length = 1 := by
  simp [router_update, h, h1]

/-- Witness for C2 at a registry holding one TopicLine named test_talker. -/
theorem router_duplicate_trigger_witness :
    (router_update ⟨[⟨"test_talker"⟩]⟩ ⟨"", "", true, true⟩).warnings = 1 ∧
    (router_update ⟨[⟨"test_talker"⟩]⟩ ⟨"", "", true, true⟩).topics =
      RouterState.topics ⟨[⟨"test_talker"⟩]⟩ ∧
    (router_update ⟨[⟨"test_talker"⟩]⟩ ⟨"", "", true, true⟩).raised = none ∧
    ((router_update ⟨[⟨"test_talker"⟩]⟩ ⟨"", "", true, true⟩).topics.filter
      (fun t => t.name == "test_talker")).length = 1 :=
  router_duplicate_trigger ⟨[⟨"test_talker"⟩]⟩ ⟨"", "", true, true⟩ (by decide) (by decide)

/-- C3: with the service buffer holding the payload chanA and an empty
registry, the handler attempts the new TopicLine under the hard-coded name
test_talker, not under a name taken from the payload. -/
theorem router_ignores_payload :
    (router_update ⟨[]⟩ ⟨"chanA", "", true, true⟩).attempted = some "test_talker" ∧
    ("test_talker" : String) ≠ "chanA" :=
  ⟨rfl, by decide⟩

/-- C4: on a rospy.ServiceException from the RPC collaborator, send leaves
the line state unchanged, notifies no listener, logs the failure at error
level, and lets no exception escape. -/
theorem service_send_remote_failure (s : LineState)
    (n f m : String) (c : Nat) (msg : String) :
    (service_send s n f m c (RpcOutcome.serviceException msg)).line = s ∧
    (service_send s n f m c (RpcOutcome.serviceException msg)).notifies = 0 ∧
    (service_send s n f m c (RpcOutcome.serviceException msg)).log =
      [LogLevel.info, LogLevel.error] ∧
    (service_send s n f m c (RpcOutcome.serviceException msg)).raised = none :=
  ⟨rfl, rfl, rfl, rfl⟩

/-- C5, at the concrete invocation of the spec scenario: with an empty
buffer and RPC result ok, the buffer does become ok, but no listener is
notified, because line 289 applies the Bool value of the is_empty property
as a function and the resulting TypeError escapes send. -/
theorem service_send_ok_typeerror :
    (service_send ⟨"", "", true, true⟩ "camA" "fc1" "m1" 1 (RpcOutcome.ok "ok")).line.input_stream = "ok" ∧
    (service_send ⟨"", "", true, true⟩ "camA" "fc1" "m1" 1 (RpcOutcome.ok "ok")).notifies = 0 ∧
    (service_send ⟨"", "", true, true⟩ "camA" "fc1" "m1" 1 (RpcOutcome.ok "ok")).raised =
      some PyError.typeError :=
  ⟨rfl, rfl, rfl⟩

/-- C6: with listeners attached in the order l1, l2, l3, every notify
invokes their update callbacks exactly in that order. -/
theorem notify_attachment_order {L : Type} (l1 l2 l3 : L) :
    notify (attach (attach (attach (Observable.mk []) l1) l2) l3) = [l1, l2, l3] :=
  rfl

/-- C7: JavaCommunicationLine.stop raises TypeError at its first statement
(close applied to the socket class) with the state unchanged, so the
running flag is never cleared there, although the parent stop it would
have called does clear the flag. -/
theorem java_stop_raises_typeerror (s : JavaLineState) :
    java_stop s = Except.error (PyError.typeError, s) ∧
    (stop s.toLineState).running = false :=
  ⟨rfl, rfl⟩

/-- C8: a topic-line send with no writing topic configured publishes
nothing, emits exactly one warning, and raises nothing. -/
theorem topic_send_no_destination (data : String) :
    topic_send none data =
      { published := none, log := [LogLevel.warn], raised := none } :=
  rfl

/-- C10 as stated is false at a concrete construction: the outcome of
constructing a JavaCommunicationLine is sys.exit(1), not an escaping
attribute-access error. -/
theorem java_init_not_attribute_raise :
    java_init "" 46626 = InitOutcome.sysExit 1 ∧
    InitOutcome.sysExit 1 ≠ InitOutcome.raised PyError.attributeError :=
  ⟨rfl, by decide⟩

/-- C10 amended: every construction of a JavaCommunicationLine ends in
sys.exit(1) (so it never completes normally and never establishes a
listening socket): _connect runs from the parent constructor before host
and port are assigned, its try body raises an attribute-access error on
reading host, and the bare except turns that into sys.exit(1). -/
theorem java_init_always_exits (h : String) (p : Nat) :
    java_init h p = InitOutcome.sysExit 1 ∧
    java_try_body freshJavaAttrs = Except.error PyError.attributeError :=
  ⟨rfl, rfl⟩

end Tpc
